import Mathlib

/-!
Shallow embedding of the e-waste valuation, eco-points, carbon-savings,
bulk-intake and image-classification logic of the E-Cycle web application
(`routes.py`, `utils.py`, `api.py`).

Numeric representation: the Python source computes `int(base_price * multiplier)`
with IEEE-754 doubles, where every multiplier is one of 1.5, 1.2, 1.0, 0.8, 0.5
and every base price is a small integer.  For every entry of every table the
double product truncates to the same integer as the exact rational product, so
the embedding represents each multiplier exactly as a number of tenths (15, 12,
10, 8, 5) and computes `base * tenths / 10` with natural-number (floor)
division; `int()` truncation towards zero agrees with floor because every
product is nonnegative.  The carbon table stores only whole-number kilogram
values, represented exactly.
-/

/-- `price_map` of the bulk-pickup route (`routes.py`, `bulk_pickup`). -/
def bulk_price_map : List (String × Nat) := [
  ("Desktop-PC", 150),
  ("Laptop", 120),
  ("Server", 200),
  ("Smartphone", 70),
  ("Tablet", 80),
  ("Flat-Panel-TV", 90),
  ("Refrigerator", 70),
  ("Washing-Machine", 70),
  ("Microwave", 50),
  ("Other", 30)]

/-- `condition_multiplier` of the bulk-pickup route, in tenths
(`WORKING: 1.2, DAMAGED: 0.8, SCRAP: 0.5`). -/
def bulk_condition_multiplier_map : List (String × Nat) := [
  ("WORKING", 12),
  ("DAMAGED", 8),
  ("SCRAP", 5)]

/-- `price_map` of the individual schedule route (`routes.py`, `schedule`). -/
def schedule_price_map : List (String × Nat) := [
  ("Desktop-PC", 150),
  ("Laptop", 120),
  ("Server", 200),
  ("PlayStation-5", 100),
  ("Xbox-Series-X", 100),
  ("Smartphone", 70),
  ("Tablet", 80),
  ("Flat-Panel-TV", 90),
  ("Flat-Panel-Monitor", 70),
  ("Digital-Oscilloscope", 150),
  ("Printer", 60),
  ("Air-Conditioner", 80),
  ("Refrigerator", 70),
  ("Washing-Machine", 70),
  ("Dishwasher", 70),
  ("CRT-Monitor", 50),
  ("CRT-TV", 40),
  ("Microwave", 50),
  ("Coffee-Machine", 40),
  ("Projector", 60),
  ("Router", 40),
  ("Network-Switch", 45),
  ("Oven", 50),
  ("Boiler", 40),
  ("PCB", 30),
  ("Electric-Guitar", 50),
  ("Electronic-Keyboard", 55),
  ("Drone", 60),
  ("Electric-Bicycle", 90),
  ("Cooled-Dispenser", 45),
  ("Battery", 20),
  ("Headphone", 25),
  ("Computer-Keyboard", 20),
  ("Computer-Mouse", 15),
  ("Smart-Watch", 35),
  ("Camera", 40),
  ("Soldering-Iron", 25),
  ("Bar-Phone", 20),
  ("Hair-Dryer", 20),
  ("Calculator", 15),
  ("LED-Bulb", 10),
  ("Flashlight", 15),
  ("USB-Flash-Drive", 15),
  ("HDD", 25),
  ("SSD", 30),
  ("Vacuum-Cleaner", 35),
  ("Speaker", 30),
  ("Toaster", 25),
  ("Other", 30)]

/-- `condition_multiplier` of the schedule route, in tenths
(`Excellent: 1.5, Good: 1.2, Fair: 1.0, Poor: 0.8`). -/
def schedule_condition_multiplier_map : List (String × Nat) := [
  ("Excellent", 15),
  ("Good", 12),
  ("Fair", 10),
  ("Poor", 8)]

/-- `price_map.get(ewaste_type, 30)` on the bulk path. -/
def bulk_base_price (t : String) : Nat :=
  (bulk_price_map.lookup t).getD 30

/-- `condition_multiplier.get(c, 1.0)` on the bulk path, in tenths. -/
def bulk_condition_multiplier_tenths (c : String) : Nat :=
  (bulk_condition_multiplier_map.lookup c).getD 10

/-- The bulk condition multiplier as the exact rational the float denotes. -/
def bulk_condition_multiplier (c : String) : ℚ :=
  (bulk_condition_multiplier_tenths c : ℚ) / 10

/-- `price_map.get(ewaste_type, 30)` on the schedule path. -/
def schedule_base_price (t : String) : Nat :=
  (schedule_price_map.lookup t).getD 30

/-- `condition_multiplier.get(condition, 1.0)` on the schedule path, in tenths. -/
def schedule_condition_multiplier_tenths (c : String) : Nat :=
  (schedule_condition_multiplier_map.lookup c).getD 10

/-- The schedule condition multiplier as the exact rational the float denotes. -/
def schedule_condition_multiplier (c : String) : ℚ :=
  (schedule_condition_multiplier_tenths c : ℚ) / 10

/-- `int(base_price * condition_multiplier.get(c, 1.0))` on the bulk path. -/
def bulk_estimated_price (t c : String) : Nat :=
  bulk_base_price t * bulk_condition_multiplier_tenths c / 10

/-- `int(base_price * condition_multiplier.get(condition, 1.0))` on the
schedule path. -/
def schedule_estimated_price (t c : String) : Nat :=
  schedule_base_price t * schedule_condition_multiplier_tenths c / 10

/-- `estimated_price // 10` — one eco point per 10 currency units. -/
def eco_points (price : Nat) : Nat := price / 10

/-- `carbon_savings` table of `utils.calculate_carbon_footprint`; every value
in the source is a whole number of kilograms (e.g. `350.0`), stored here as
that integer. -/
def carbon_savings : List (String × Nat) := [
  ("Laptop", 140),
  ("Desktop-PC", 200),
  ("Server", 250),
  ("Tablet", 80),
  ("Calculator", 8),
  ("Digital-Oscilloscope", 90),
  ("Computer-Keyboard", 8),
  ("Computer-Mouse", 5),
  ("HDD", 15),
  ("SSD", 12),
  ("PCB", 20),
  ("Network-Switch", 25),
  ("Router", 30),
  ("USB-Flash-Drive", 6),
  ("Smartphone", 60),
  ("Bar-Phone", 30),
  ("Telephone-Set", 25),
  ("Smart-Watch", 20),
  ("TV-Remote-Control", 5),
  ("Flat-Panel-Monitor", 90),
  ("CRT-Monitor", 150),
  ("Flat-Panel-TV", 120),
  ("CRT-TV", 180),
  ("Projector", 70),
  ("Air-Conditioner", 300),
  ("Washing-Machine", 240),
  ("Refrigerator", 350),
  ("Freezer", 300),
  ("Microwave", 100),
  ("Dishwasher", 150),
  ("Oven", 120),
  ("Stove", 100),
  ("Range-Hood", 70),
  ("Tumble-Dryer", 180),
  ("Boiler", 200),
  ("Coffee-Machine", 50),
  ("Vacuum-Cleaner", 80),
  ("Toaster", 30),
  ("Cooled-Dispenser", 90),
  ("Non-Cooled-Dispenser", 40),
  ("Hair-Dryer", 20),
  ("Clothes-Iron", 25),
  ("Speaker", 25),
  ("Headphone", 15),
  ("Camera", 40),
  ("Music-Player", 30),
  ("Electronic-Keyboard", 60),
  ("Electric-Guitar", 45),
  ("PlayStation-5", 80),
  ("Xbox-Series-X", 80),
  ("Blood-Pressure-Monitor", 30),
  ("Glucose-Meter", 25),
  ("Pulse-Oximeter", 20),
  ("Electrocardiograph-Machine", 100),
  ("Patient-Monitoring-System", 120),
  ("Battery", 10),
  ("LED-Bulb", 5),
  ("Compact-Fluorescent-Lamps", 8),
  ("Straight-Tube-Fluorescent-Lamp", 10),
  ("Table-Lamp", 15),
  ("Street-Lamp", 60),
  ("Ceiling-Fan", 40),
  ("Floor-Fan", 35),
  ("Exhaust-Fan", 30),
  ("Neon-Sign", 25),
  ("Christmas-Lights", 15),
  ("Flashlight", 8),
  ("Power-Adapter", 7),
  ("Smoke-Detector", 12),
  ("Drone", 50),
  ("Electric-Bicycle", 120),
  ("Soldering-Iron", 15),
  ("Photovoltaic-Panel", 100),
  ("Cooling-Display", 130),
  ("Rotary-Mower", 70),
  ("Mobile", 60),
  ("Desktop", 200),
  ("Monitor", 90),
  ("Other", 40)]

/-- `carbon_savings.get(ewaste_type, 40.0)`. -/
def carbon_per_unit (t : String) : Nat :=
  (carbon_savings.lookup t).getD 40

/-- `utils.calculate_carbon_footprint(ewaste_type, quantity)`:
per-unit figure times quantity, as the exact rational the float denotes. -/
def calculate_carbon_footprint (t : String) (quantity : Nat) : ℚ :=
  (carbon_per_unit t : ℚ) * quantity

/-- The `EwasteCondition` enum of `models.py` (members `WORKING`, `DAMAGED`,
`SCRAP`). -/
inductive EwasteCondition where
  | WORKING
  | DAMAGED
  | SCRAP
deriving DecidableEq, Repr

/-- `condition.name` of an `EwasteCondition` member. -/
def conditionName : EwasteCondition → String
  | .WORKING => "WORKING"
  | .DAMAGED => "DAMAGED"
  | .SCRAP => "SCRAP"

/-- Python `EwasteCondition[s]`: member lookup by name; `none` models the
`KeyError` raised for any other string. -/
def ewasteConditionOfName (s : String) : Option EwasteCondition :=
  if s = "WORKING" then some .WORKING
  else if s = "DAMAGED" then some .DAMAGED
  else if s = "SCRAP" then some .SCRAP
  else none

/-- Does the character list start with the given needle? (Python `startswith`
on explicit character lists, kept kernel-reducible.) -/
def charListStartsWith : List Char → List Char → Bool
  | [], _ => true
  | _ :: _, [] => false
  | c :: cs, d :: ds => c == d && charListStartsWith cs ds

/-- Does the haystack contain the needle as a contiguous run? (Python
`needle in hay`.) -/
def charListHasSub (needle : List Char) : List Char → Bool
  | [] => needle.isEmpty
  | d :: ds => charListStartsWith needle (d :: ds) || charListHasSub needle ds

/-- Python `str.strip()` on a character list: drop whitespace at both ends. -/
def pyStripChars (l : List Char) : List Char :=
  ((l.dropWhile Char.isWhitespace).reverse.dropWhile Char.isWhitespace).reverse

/-- Python `str.strip()`. -/
def pyStrip (s : String) : String := String.mk (pyStripChars s.data)

/-- Python `str.upper()` (ASCII model). -/
def strUpperChars (l : List Char) : List Char := l.map Char.toUpper

/-- Python `str.lower()` (ASCII model). -/
def strLower (s : String) : String := String.mk (s.data.map Char.toLower)

/-- Python `str.isdigit()` (ASCII model): nonempty and all digits. -/
def pyStrIsDigit (s : String) : Bool :=
  !s.data.isEmpty && s.data.all Char.isDigit

/-- Numeric value of a digit-only character list, most significant first. -/
def digitsVal (l : List Char) : Nat :=
  l.foldl (fun n c => n * 10 + (c.toNat - 48)) 0

/-- Are the characters a nonempty run of digits? -/
def digitsOnly (l : List Char) : Bool := !l.isEmpty && l.all Char.isDigit

/-- Python `int(s)` on a string: optional surrounding whitespace, optional
sign, at least one digit; `none` models the `ValueError` raised otherwise. -/
def pyIntOfString (s : String) : Option Int :=
  match pyStripChars s.data with
  | '-' :: ds => if digitsOnly ds then some (-(digitsVal ds : Int)) else none
  | '+' :: ds => if digitsOnly ds then some ((digitsVal ds : Int)) else none
  | ds => if digitsOnly ds then some ((digitsVal ds : Int)) else none

/-- Inline-form quantity (`routes.py`, `bulk_pickup` item loop):
`int(quantities[i]) if i < len(quantities) and quantities[i].isdigit() else 1`;
`none` models a missing field. -/
def inline_quantity (q : Option String) : Int :=
  match q with
  | some s => if pyStrIsDigit s then (digitsVal s.data : Int) else 1
  | none => 1

/-- CSV-row quantity: `int(row.get('Quantity', 1))` with `ValueError`/
`TypeError` defaulting to 1; `none` models a missing column. -/
def csv_quantity (q : Option String) : Int :=
  match q with
  | none => 1
  | some s => (pyIntOfString s).getD 1

/-- Spreadsheet-row quantity: missing/NaN cell defaults to 1 (outer `none`),
an unparseable cell defaults to 1 (inner `none`), and the result is clamped
by `max(1, quantity)`. -/
def excel_quantity (cell : Option (Option Int)) : Int :=
  max 1 ((cell.getD (some 1)).getD 1)

/-- CSV/spreadsheet condition resolution: strip, uppercase, then
`'WORK' in s` → WORKING, else `'DAMAGE' in s` → DAMAGED, else SCRAP. -/
def map_condition (s : String) : EwasteCondition :=
  let u := strUpperChars (pyStripChars s.data)
  if charListHasSub "WORK".data u then .WORKING
  else if charListHasSub "DAMAGE".data u then .DAMAGED
  else .SCRAP

/-- `''.join(c for c in s if c.isprintable())` (ASCII model: keep characters
from space upwards). -/
def printable_only (s : String) : String :=
  String.mk (s.data.filter fun c => 32 ≤ c.toNat)

/-- One accepted bulk line item (`BulkEwasteItem` fields that the intake
logic computes). -/
structure BulkItem where
  ewasteType : String
  brandModel : String
  quantity : Int
  condition : EwasteCondition
  pricePerUnit : Nat
  ptsPerUnit : Nat
deriving DecidableEq, Repr

/-- One inline form row: `ewaste_type[]` entry plus the parallel lists
(`none` models a parallel list shorter than `ewaste_type[]`). -/
structure InlineRow where
  ewasteType : String
  brandModel : Option String
  quantityStr : Option String
  conditionStr : Option String
  notes : Option String
deriving DecidableEq, Repr

/-- One CSV dict-row (`none` models a missing column). -/
structure CsvRow where
  deviceType : Option String
  model : Option String
  quantity : Option String
  condition : Option String
  notes : Option String
deriving DecidableEq, Repr

/-- One spreadsheet dict-row (`none` models a missing/NaN cell). -/
structure ExcelRow where
  deviceType : Option String
  model : Option String
  quantity : Option (Option Int)
  condition : Option String
  notes : Option String
deriving DecidableEq, Repr

/-- Inline item construction.  There is no per-row exception handler on this
path: an empty `ewaste_type` is skipped (`ok none`), a condition string that
is not an `EwasteCondition` member raises `KeyError` at
`EwasteCondition[condition_value]` (`error`). -/
def inline_item (r : InlineRow) : Except String (Option BulkItem) :=
  if r.ewasteType = "" then .ok none
  else
    let q := inline_quantity r.quantityStr
    let condVal := r.conditionStr.getD "WORKING"
    let price := bulk_estimated_price r.ewasteType condVal
    match ewasteConditionOfName condVal with
    | none => .error condVal
    | some cond =>
      .ok (some { ewasteType := r.ewasteType, brandModel := r.brandModel.getD "",
                  quantity := q, condition := cond, pricePerUnit := price,
                  ptsPerUnit := eco_points price })

/-- The inline item loop: items plus running `(total_items,
total_eco_points)`; the first raising row aborts the whole submission
(everything is rolled back by the surrounding handler). -/
def inline_process : List InlineRow → Except String (List BulkItem × Int × Int)
  | [] => .ok ([], 0, 0)
  | r :: rs =>
    match inline_item r with
    | .error e => .error e
    | .ok none => inline_process rs
    | .ok (some it) =>
      match inline_process rs with
      | .error e => .error e
      | .ok (items, ti, tp) =>
        .ok (it :: items, ti + it.quantity, tp + (it.ptsPerUnit : Int) * it.quantity)

/-- CSV per-row item construction (the body of the CSV row loop; every
operation is defensive, so it is total). -/
def csv_item (r : CsvRow) : BulkItem :=
  let t := pyStrip (r.deviceType.getD "Other")
  let brand := printable_only (pyStrip (r.model.getD ""))
  let q := csv_quantity r.quantity
  let cond := map_condition (r.condition.getD "WORKING")
  let price := bulk_estimated_price t (conditionName cond)
  { ewasteType := t, brandModel := brand, quantity := q, condition := cond,
    pricePerUnit := price, ptsPerUnit := eco_points price }

/-- The CSV row loop: the per-row `try/except` catches any row failure and
continues, and the row body never raises, so every row is accepted. -/
def csv_process : List CsvRow → List BulkItem × Int × Int
  | [] => ([], 0, 0)
  | r :: rs =>
    let it := csv_item r
    let rest := csv_process rs
    (it :: rest.1, rest.2.1 + it.quantity, rest.2.2 + (it.ptsPerUnit : Int) * it.quantity)

/-- Spreadsheet device-type extraction: `str(row.get(...) or 'Other').strip()`
followed by the `'nan'`/empty check. -/
def excel_device_type (o : Option String) : String :=
  let s0 := o.getD ""
  let s1 := if s0 = "" then "Other" else s0
  let s2 := pyStrip s1
  if s2 = "nan" ∨ s2 = "" then "Other" else s2

/-- Spreadsheet per-row item construction (body of the Excel row loop). -/
def excel_item (r : ExcelRow) : BulkItem :=
  let t := excel_device_type r.deviceType
  let brand := printable_only (pyStrip (r.model.getD ""))
  let q := excel_quantity r.quantity
  let c0 := r.condition.getD ""
  let cond := map_condition (if c0 = "" then "WORKING" else c0)
  let price := bulk_estimated_price t (conditionName cond)
  { ewasteType := t, brandModel := brand, quantity := q, condition := cond,
    pricePerUnit := price, ptsPerUnit := eco_points price }

/-- The spreadsheet row loop, same recovery structure as the CSV loop. -/
def excel_process : List ExcelRow → List BulkItem × Int × Int
  | [] => ([], 0, 0)
  | r :: rs =>
    let it := excel_item r
    let rest := excel_process rs
    (it :: rest.1, rest.2.1 + it.quantity, rest.2.2 + (it.ptsPerUnit : Int) * it.quantity)

/-- Metadata the mock classifier extracts from an opened image
(`api.generate_mock_results`). -/
structure ImgInfo where
  width : Nat
  height : Nat
  avgColor : ℚ
deriving DecidableEq, Repr

/-- The aspect-ratio / average-color decision chain of
`api.generate_mock_results` (before the filename override). -/
def mock_guess (img : ImgInfo) : String × ℚ :=
  let ar : ℚ := if img.height > 0 then (img.width : ℚ) / img.height else 1
  if 9/10 < ar ∧ ar < 11/10 then
    if img.avgColor < 100 then ("Computer-Mouse", 85/100) else ("Battery", 88/100)
  else if ar > 3/2 then ("Laptop", 94/100)
  else if ar < 7/10 then ("Smartphone", 91/100)
  else if img.width > 1000 ∧ img.height > 800 then ("Flat-Panel-Monitor", 89/100)
  else ("Laptop", 92/100)

/-- `api.generate_mock_results`: `none` models a PIL failure to open the
image (the `except` branch defaults to Laptop, 0.85); otherwise the
heuristic guess, overridden by filename keywords. -/
def generate_mock_results (img : Option ImgInfo) (path : String) : String × ℚ :=
  match img with
  | none => ("Laptop", 85/100)
  | some i =>
    let p := (strLower path).data
    if charListHasSub "laptop".data p then ("Laptop", 97/100)
    else if charListHasSub "phone".data p || charListHasSub "smartphone".data p then
      ("Smartphone", 96/100)
    else if charListHasSub "monitor".data p || charListHasSub "display".data p then
      ("Flat-Panel-Monitor", 95/100)
    else mock_guess i

/-- `api.classify_image`: when an API key is configured, try the external
call (`infer`, an `Except` modelling the service outcome) and fall back to
the mock on any exception; otherwise use the mock directly. -/
def classify_image (hasKey : Bool) (infer : Except String (String × ℚ))
    (img : Option ImgInfo) (path : String) : String × ℚ :=
  if hasKey then
    match infer with
    | .ok r => r
    | .error _ => generate_mock_results img path
  else generate_mock_results img path

/-- `class_to_type` synonym table of the `/classify` route (`routes.py`):
lowercase detector label → canonical device-category label. -/
def class_to_type : List (String × String) := [
  ("air-conditioner", "Air-Conditioner"),
  ("bar-phone", "Bar-Phone"),
  ("battery", "Battery"),
  ("blood-pressure-monitor", "Blood-Pressure-Monitor"),
  ("boiler", "Boiler"),
  ("crt-monitor", "CRT-Monitor"),
  ("crt-tv", "CRT-TV"),
  ("calculator", "Calculator"),
  ("camera", "Camera"),
  ("ceiling-fan", "Ceiling-Fan"),
  ("christmas-lights", "Christmas-Lights"),
  ("clothes-iron", "Clothes-Iron"),
  ("coffee-machine", "Coffee-Machine"),
  ("compact-fluorescent-lamps", "Compact-Fluorescent-Lamps"),
  ("computer-keyboard", "Computer-Keyboard"),
  ("computer-mouse", "Computer-Mouse"),
  ("cooled-dispenser", "Cooled-Dispenser"),
  ("cooling-display", "Cooling-Display"),
  ("dehumidifier", "Dehumidifier"),
  ("desktop-pc", "Desktop-PC"),
  ("desktop", "Desktop-PC"),
  ("digital-oscilloscope", "Digital-Oscilloscope"),
  ("dishwasher", "Dishwasher"),
  ("drone", "Drone"),
  ("electric-bicycle", "Electric-Bicycle"),
  ("electric-guitar", "Electric-Guitar"),
  ("electrocardiograph-machine", "Electrocardiograph-Machine"),
  ("electronic-keyboard", "Electronic-Keyboard"),
  ("exhaust-fan", "Exhaust-Fan"),
  ("flashlight", "Flashlight"),
  ("flat-panel-monitor", "Flat-Panel-Monitor"),
  ("flat-panel-tv", "Flat-Panel-TV"),
  ("monitor", "Flat-Panel-Monitor"),
  ("tv", "Flat-Panel-TV"),
  ("floor-fan", "Floor-Fan"),
  ("freezer", "Freezer"),
  ("glucose-meter", "Glucose-Meter"),
  ("hdd", "HDD"),
  ("hard disk", "HDD"),
  ("hair-dryer", "Hair-Dryer"),
  ("headphone", "Headphone"),
  ("led-bulb", "LED-Bulb"),
  ("laptop", "Laptop"),
  ("microwave", "Microwave"),
  ("music-player", "Music-Player"),
  ("neon-sign", "Neon-Sign"),
  ("network-switch", "Network-Switch"),
  ("non-cooled-dispenser", "Non-Cooled-Dispenser"),
  ("oven", "Oven"),
  ("pcb", "PCB"),
  ("patient-monitoring-system", "Patient-Monitoring-System"),
  ("photovoltaic-panel", "Photovoltaic-Panel"),
  ("playstation-5", "PlayStation-5"),
  ("ps5", "PlayStation-5"),
  ("power-adapter", "Power-Adapter"),
  ("printer", "Printer"),
  ("projector", "Projector"),
  ("pulse-oximeter", "Pulse-Oximeter"),
  ("range-hood", "Range-Hood"),
  ("refrigerator", "Refrigerator"),
  ("rotary-mower", "Rotary-Mower"),
  ("router", "Router"),
  ("ssd", "SSD"),
  ("server", "Server"),
  ("smart-watch", "Smart-Watch"),
  ("smartphone", "Smartphone"),
  ("mobile", "Smartphone"),
  ("phone", "Smartphone"),
  ("cell phone", "Smartphone"),
  ("smoke-detector", "Smoke-Detector"),
  ("soldering-iron", "Soldering-Iron"),
  ("speaker", "Speaker"),
  ("stove", "Stove"),
  ("straight-tube-fluorescent-lamp", "Straight-Tube-Fluorescent-Lamp"),
  ("street-lamp", "Street-Lamp"),
  ("tv-remote-control", "TV-Remote-Control"),
  ("remote", "TV-Remote-Control"),
  ("table-lamp", "Table-Lamp"),
  ("tablet", "Tablet"),
  ("telephone-set", "Telephone-Set"),
  ("toaster", "Toaster"),
  ("tumble-dryer", "Tumble-Dryer"),
  ("dryer", "Tumble-Dryer"),
  ("usb-flash-drive", "USB-Flash-Drive"),
  ("usb", "USB-Flash-Drive"),
  ("vacuum-cleaner", "Vacuum-Cleaner"),
  ("washing-machine", "Washing-Machine"),
  ("washer", "Washing-Machine"),
  ("xbox-series-x", "Xbox-Series-X"),
  ("xbox", "Xbox-Series-X")]

/-- `EWASTE_TYPES` canonical vocabulary (`api.py`). -/
def EWASTE_TYPES : List String := [
  "Air-Conditioner",
  "Bar-Phone",
  "Battery",
  "Blood-Pressure-Monitor",
  "Boiler",
  "CRT-Monitor",
  "CRT-TV",
  "Calculator",
  "Camera",
  "Ceiling-Fan",
  "Christmas-Lights",
  "Clothes-Iron",
  "Coffee-Machine",
  "Compact-Fluorescent-Lamps",
  "Computer-Keyboard",
  "Computer-Mouse",
  "Cooled-Dispenser",
  "Cooling-Display",
  "Dehumidifier",
  "Desktop-PC",
  "Digital-Oscilloscope",
  "Dishwasher",
  "Drone",
  "Electric-Bicycle",
  "Electric-Guitar",
  "Electrocardiograph-Machine",
  "Electronic-Keyboard",
  "Exhaust-Fan",
  "Flashlight",
  "Flat-Panel-Monitor",
  "Flat-Panel-TV",
  "Floor-Fan",
  "Freezer",
  "Glucose-Meter",
  "HDD",
  "Hair-Dryer",
  "Headphone",
  "LED-Bulb",
  "Laptop",
  "Microwave",
  "Music-Player",
  "Neon-Sign",
  "Network-Switch",
  "Non-Cooled-Dispenser",
  "Oven",
  "PCB",
  "Patient-Monitoring-System",
  "Photovoltaic-Panel",
  "PlayStation-5",
  "Power-Adapter",
  "Printer",
  "Projector",
  "Pulse-Oximeter",
  "Range-Hood",
  "Refrigerator",
  "Rotary-Mower",
  "Router",
  "SSD",
  "Server",
  "Smart-Watch",
  "Smartphone",
  "Smoke-Detector",
  "Soldering-Iron",
  "Speaker",
  "Stove",
  "Straight-Tube-Fluorescent-Lamp",
  "Street-Lamp",
  "TV-Remote-Control",
  "Table-Lamp",
  "Tablet",
  "Telephone-Set",
  "Toaster",
  "Tumble-Dryer",
  "USB-Flash-Drive",
  "Vacuum-Cleaner",
  "Washing-Machine",
  "Xbox-Series-X"]

/-- Label normalization of the `/classify` route:
`class_to_type.get(detected_class.lower(), detected_class)`. -/
def normalize_label (detected : String) : String :=
  (class_to_type.lookup (strLower detected)).getD detected

/-- Does an inline row pass the inline loop without raising?  (Empty type:
silently skipped; otherwise its condition string must be an
`EwasteCondition` member.) -/
def inlineRowValid (r : InlineRow) : Bool :=
  r.ewasteType == "" || (ewasteConditionOfName (r.conditionStr.getD "WORKING")).isSome

/-- A well-formed inline row. -/
def inlineGoodRow : InlineRow := ⟨"Laptop", none, some "2", some "WORKING", none⟩

/-- An inline row whose condition string is not an `EwasteCondition`
member. -/
def inlineBadRow : InlineRow := ⟨"Laptop", none, some "1", some "BROKEN", none⟩

/-- A CSV row whose quantity cell parses to a negative integer. -/
def csvNegRow : CsvRow := ⟨some "Laptop", none, some "-5", some "WORKING", none⟩

/-! Helper lemmas. -/

lemma lookup_eq_none_of_not_mem {β : Type} (l : List (String × β)) (a : String)
    (h : a ∉ l.map Prod.fst) : l.lookup a = none := by
  induction l with
  | nil => rfl
  | cons p l ih =>
    obtain ⟨k, b⟩ := p
    simp only [List.map_cons, List.mem_cons, not_or] at h
    have hne : (a == k) = false := beq_eq_false_iff_ne.mpr h.1
    simp [List.lookup, hne, ih h.2]

lemma floor_tenths (b m : ℕ) : ⌊(b : ℚ) * ((m : ℚ) / 10)⌋₊ = b * m / 10 := by
  have h : (b : ℚ) * ((m : ℚ) / 10) = ((b * m : ℕ) : ℚ) / ((10 : ℕ) : ℚ) := by
    push_cast; ring
  rw [h, Nat.floor_div_nat, Nat.floor_natCast]

/-- C1: for every category in the individual-intake price table and every
condition in Excellent/Good/Fair/Poor, the schedule path computes
`estimated_price = floor(base_price * multiplier)` exactly; in particular
Laptop with condition Excellent yields estimated price 180 and 18 eco
points. -/
theorem C1_individual_price_floor :
    (∀ cat ∈ schedule_price_map.map Prod.fst,
      ∀ cond ∈ ["Excellent", "Good", "Fair", "Poor"],
        schedule_estimated_price cat cond
          = ⌊(schedule_base_price cat : ℚ) * schedule_condition_multiplier cond⌋₊)
    ∧ schedule_estimated_price "Laptop" "Excellent" = 180
    ∧ eco_points (schedule_estimated_price "Laptop" "Excellent") = 18 := by
  refine ⟨fun cat _ cond _ => ?_, by decide, by decide⟩
  simp only [schedule_estimated_price, schedule_condition_multiplier]
  exact (floor_tenths _ _).symm

/-- Witness for C1 at category "Server", condition "Poor". -/
theorem C1_witness :
    schedule_estimated_price "Server" "Poor"
      = ⌊(schedule_base_price "Server" : ℚ) * schedule_condition_multiplier "Poor"⌋₊ :=
  C1_individual_price_floor.1 "Server" (by decide) "Poor" (by decide)

/-- C4: for every category string and every condition string, the price
computation is total; an unknown category falls back to base price 30 and an
unknown condition to multiplier 1.0, on both the schedule and the bulk
path. -/
theorem C4_unknown_defaults :
    ∀ cat cond : String,
      (cat ∉ schedule_price_map.map Prod.fst → schedule_base_price cat = 30)
      ∧ (cond ∉ schedule_condition_multiplier_map.map Prod.fst →
          schedule_condition_multiplier cond = 1)
      ∧ (cat ∉ bulk_price_map.map Prod.fst → bulk_base_price cat = 30)
      ∧ (cond ∉ bulk_condition_multiplier_map.map Prod.fst →
          bulk_condition_multiplier cond = 1) := by
  intro cat cond
  refine ⟨fun h => ?_, fun h => ?_, fun h => ?_, fun h => ?_⟩
  · simp [schedule_base_price, lookup_eq_none_of_not_mem _ _ h]
  · simp [schedule_condition_multiplier, schedule_condition_multiplier_tenths,
      lookup_eq_none_of_not_mem _ _ h]
  · simp [bulk_base_price, lookup_eq_none_of_not_mem _ _ h]
  · simp [bulk_condition_multiplier, bulk_condition_multiplier_tenths,
      lookup_eq_none_of_not_mem _ _ h]

/-- Witness for C4 at the unknown strings "Gadget" and "Mint". -/
theorem C4_witness :
    schedule_base_price "Gadget" = 30 ∧ schedule_condition_multiplier "Mint" = 1
    ∧ bulk_base_price "Gadget" = 30 ∧ bulk_condition_multiplier "Mint" = 1 :=
  ⟨(C4_unknown_defaults "Gadget" "Mint").1 (by decide),
   (C4_unknown_defaults "Gadget" "Mint").2.1 (by decide),
   (C4_unknown_defaults "Gadget" "Mint").2.2.1 (by decide),
   (C4_unknown_defaults "Gadget" "Mint").2.2.2 (by decide)⟩

/-- C5: the bulk-intake path uses its own condition multiplier table,
distinct from the individual-intake one: WORKING 1.2, DAMAGED 0.8,
SCRAP 0.5; Desktop-PC with condition DAMAGED yields estimated price 120
and 12 eco points. -/
theorem C5_bulk_multiplier_table :
    bulk_condition_multiplier "WORKING" = 6/5
    ∧ bulk_condition_multiplier "DAMAGED" = 4/5
    ∧ bulk_condition_multiplier "SCRAP" = 1/2
    ∧ bulk_condition_multiplier ≠ schedule_condition_multiplier
    ∧ bulk_estimated_price "Desktop-PC" "DAMAGED" = 120
    ∧ eco_points (bulk_estimated_price "Desktop-PC" "DAMAGED") = 12 := by
  refine ⟨?_, ?_, ?_, ?_, by decide, by decide⟩
  · have h : bulk_condition_multiplier_tenths "WORKING" = 12 := by decide
    rw [bulk_condition_multiplier, h]; norm_num
  · have h : bulk_condition_multiplier_tenths "DAMAGED" = 8 := by decide
    rw [bulk_condition_multiplier, h]; norm_num
  · have h : bulk_condition_multiplier_tenths "SCRAP" = 5 := by decide
    rw [bulk_condition_multiplier, h]; norm_num
  · intro h
    have h1 := congrFun h "WORKING"
    have h2 : bulk_condition_multiplier_tenths "WORKING" = 12 := by decide
    have h3 : schedule_condition_multiplier_tenths "WORKING" = 10 := by decide
    rw [bulk_condition_multiplier, schedule_condition_multiplier, h2, h3] at h1
    norm_num at h1

/-- C6: eco points per unit are `estimated_price / 10` (integer division),
and the batch totals accumulate the per-unit points times the row
quantity, on both file-based bulk paths. -/
theorem C6_eco_points_accumulation :
    (∀ price : Nat, eco_points price = price / 10)
    ∧ (∀ r : CsvRow, (csv_item r).ptsPerUnit = (csv_item r).pricePerUnit / 10)
    ∧ (∀ rows : List CsvRow,
        (csv_process rows).2.2
          = (rows.map (fun r => ((csv_item r).ptsPerUnit : Int) * (csv_item r).quantity)).sum)
    ∧ (∀ rows : List ExcelRow,
        (excel_process rows).2.2
          = (rows.map (fun r => ((excel_item r).ptsPerUnit : Int) * (excel_item r).quantity)).sum) := by
  refine ⟨fun _ => rfl, fun r => rfl, fun rows => ?_, fun rows => ?_⟩
  · induction rows with
    | nil => rfl
    | cons r rs ih =>
      simp only [csv_process, List.map_cons, List.sum_cons, ih]
      ring
  · induction rows with
    | nil => rfl
    | cons r rs ih =>
      simp only [excel_process, List.map_cons, List.sum_cons, ih]
      ring

/-- C7: carbon savings are linear in the quantity, the per-unit figure is
the table entry (40 for an unknown category), and
`calculate_carbon_footprint("Refrigerator", 3) = 1050`. -/
theorem C7_carbon_linear :
    (∀ (cat : String) (n : Nat), 0 < n →
        calculate_carbon_footprint cat n = calculate_carbon_footprint cat 1 * n)
    ∧ (∀ cat : String, cat ∉ carbon_savings.map Prod.fst →
        calculate_carbon_footprint cat 1 = 40)
    ∧ calculate_carbon_footprint "Refrigerator" 3 = 1050 := by
  refine ⟨fun cat n _ => ?_, fun cat h => ?_, ?_⟩
  · simp only [calculate_carbon_footprint]
    push_cast
    ring
  · simp [calculate_carbon_footprint, carbon_per_unit,
      lookup_eq_none_of_not_mem _ _ h]
  · have h : carbon_per_unit "Refrigerator" = 350 := by decide
    simp only [calculate_carbon_footprint, h]
    norm_num

/-- Witness for C7 at category "Laptop" with quantity 5 and at the unknown
category "Widget". -/
theorem C7_witness :
    calculate_carbon_footprint "Laptop" 5 = calculate_carbon_footprint "Laptop" 1 * 5
    ∧ calculate_carbon_footprint "Widget" 1 = 40 :=
  ⟨C7_carbon_linear.1 "Laptop" 5 (by norm_num),
   C7_carbon_linear.2.1 "Widget" (by decide)⟩

/-- C2 counterexample: the CSV path records a parsed negative quantity as-is
(`int(row.get('Quantity', 1))` has no clamp), and the inline path records 0
for the digit string "0" — the claimed minimum of 1 does not hold. -/
theorem C2_counterexample :
    (csv_item csvNegRow).quantity = -5 ∧ inline_quantity (some "0") = 0 := by
  decide

/-- C2 (amended): missing or unparseable quantities default to 1 on every
path; only the spreadsheet path clamps to a minimum of 1; the inline path
accepts only unsigned digit strings, so it is never negative but can record
0; the CSV path records the parsed value as-is. -/
theorem C2_quantity_defaults :
    (∀ s : String, pyStrIsDigit s = false → inline_quantity (some s) = 1)
    ∧ inline_quantity none = 1
    ∧ (∀ q : Option String, 0 ≤ inline_quantity q)
    ∧ (∀ s : String, pyIntOfString s = none → csv_quantity (some s) = 1)
    ∧ csv_quantity none = 1
    ∧ (∀ cell : Option (Option Int), 1 ≤ excel_quantity cell) := by
  refine ⟨fun s h => ?_, rfl, fun q => ?_, fun s h => ?_, rfl, fun cell => ?_⟩
  · simp [inline_quantity, h]
  · cases q with
    | none => norm_num [inline_quantity]
    | some s =>
      simp only [inline_quantity]
      split
      · exact Int.natCast_nonneg _
      · norm_num
  · simp [csv_quantity, h]
  · exact le_max_left 1 _

/-- Witness for C2 (amended) at concrete unparseable quantities and a
negative spreadsheet cell. -/
theorem C2_amended_witness :
    inline_quantity (some "two") = 1 ∧ csv_quantity (some "2.5") = 1
    ∧ 1 ≤ excel_quantity (some (some (-7))) :=
  ⟨C2_quantity_defaults.1 "two" (by decide),
   C2_quantity_defaults.2.2.2.1 "2.5" (by decide),
   C2_quantity_defaults.2.2.2.2.2 (some (some (-7)))⟩

lemma inline_process_isOk (rows : List InlineRow) :
    (inline_process rows).isOk = rows.all inlineRowValid := by
  induction rows with
  | nil => rfl
  | cons r rs ih =>
    by_cases he : r.ewasteType = ""
    · have hitem : inline_item r = .ok none := by
        simp [inline_item, he]
      simp [inline_process, hitem, inlineRowValid, he, ih]
    · cases hc : ewasteConditionOfName (r.conditionStr.getD "WORKING") with
      | none =>
        have hitem : ∃ e, inline_item r = .error e := by
          simp [inline_item, he, hc]
        obtain ⟨e, hitem⟩ := hitem
        simp [inline_process, hitem, inlineRowValid, he, hc, Except.isOk, Except.toBool, beq_iff_eq]
      | some c =>
        have hitem : ∃ it, inline_item r = .ok (some it) := by
          simp [inline_item, he, hc]
        obtain ⟨it, hitem⟩ := hitem
        cases hrec : inline_process rs with
        | error e =>
          rw [hrec] at ih
          simp [inline_process, hitem, hrec, inlineRowValid, he, hc, ← ih]
        | ok t =>
          rw [hrec] at ih
          obtain ⟨items, ti, tp⟩ := t
          simp [inline_process, hitem, hrec, inlineRowValid, he, hc, Except.isOk, Except.toBool, ← ih]

/-- C3 counterexample: an inline batch with one malformed row (condition
string "BROKEN") aborts the whole submission instead of skipping the row,
while the same batch without that row succeeds. -/
theorem C3_counterexample :
    inline_process [inlineGoodRow, inlineBadRow, inlineGoodRow] = Except.error "BROKEN"
    ∧ (inline_process [inlineGoodRow, inlineGoodRow]).isOk = true :=
  ⟨rfl, rfl⟩

/-- C3 (amended): per-row failures on the CSV and spreadsheet paths are
caught and never abort the remaining rows — every such row is accepted —
but the inline path has no per-row handler: it succeeds exactly when every
inline row is skippable or has a valid condition member name. -/
theorem C3_row_recovery :
    (∀ rows : List CsvRow, (csv_process rows).1.length = rows.length)
    ∧ (∀ rows : List ExcelRow, (excel_process rows).1.length = rows.length)
    ∧ (∀ rows : List InlineRow,
        (inline_process rows).isOk = true ↔ ∀ r ∈ rows, inlineRowValid r = true) := by
  refine ⟨fun rows => ?_, fun rows => ?_, fun rows => ?_⟩
  · induction rows with
    | nil => rfl
    | cons r rs ih => simp [csv_process, ih]
  · induction rows with
    | nil => rfl
    | cons r rs ih => simp [excel_process, ih]
  · rw [inline_process_isOk, List.all_eq_true]

/-- Witness for C3 (amended) on a concrete one-row inline batch. -/
theorem C3_amended_witness :
    (inline_process [inlineGoodRow]).isOk = true :=
  (C3_row_recovery.2.2 [inlineGoodRow]).mpr (by decide)

/-- C8 counterexample: the substring rule would classify "working" as
WORKING, but an inline row with condition string "working" is not resolved
by substring match — it raises (`EwasteCondition["working"]` is a
`KeyError`) and the submission aborts. -/
theorem C8_counterexample :
    map_condition "working" = EwasteCondition.WORKING
    ∧ inline_process [⟨"Laptop", none, some "1", some "working", none⟩]
        = Except.error "working" :=
  ⟨by decide, rfl⟩

/-- C8 (amended): CSV and spreadsheet rows resolve their condition by the
case-insensitive substring match (strip, uppercase, then WORK → WORKING,
else DAMAGE → DAMAGED, else SCRAP); inline rows instead use the raw string
as an exact enum member name. -/
theorem C8_condition_resolution :
    (∀ r : CsvRow, (csv_item r).condition = map_condition (r.condition.getD "WORKING"))
    ∧ (∀ r : ExcelRow, (excel_item r).condition
        = map_condition (if r.condition.getD "" = "" then "WORKING" else r.condition.getD ""))
    ∧ (∀ s : String,
        (charListHasSub "WORK".data (strUpperChars (pyStripChars s.data)) = true →
          map_condition s = .WORKING)
        ∧ (charListHasSub "WORK".data (strUpperChars (pyStripChars s.data)) = false →
            charListHasSub "DAMAGE".data (strUpperChars (pyStripChars s.data)) = true →
          map_condition s = .DAMAGED)
        ∧ (charListHasSub "WORK".data (strUpperChars (pyStripChars s.data)) = false →
            charListHasSub "DAMAGE".data (strUpperChars (pyStripChars s.data)) = false →
          map_condition s = .SCRAP))
    ∧ (∀ s c, ewasteConditionOfName s = some c → s = conditionName c) := by
  refine ⟨fun r => rfl, fun r => rfl,
    fun s => ⟨fun h => ?_, fun h1 h2 => ?_, fun h1 h2 => ?_⟩, fun s c h => ?_⟩
  · simp [map_condition, h]
  · simp [map_condition, h1, h2]
  · simp [map_condition, h1, h2]
  · unfold ewasteConditionOfName at h
    split_ifs at h with h1 h2 h3
    · simp only [Option.some.injEq] at h
      subst h
      exact h1
    · simp only [Option.some.injEq] at h
      subst h
      exact h2
    · simp only [Option.some.injEq] at h
      subst h
      exact h3

/-- Witness for C8 (amended) at a concrete mixed-case condition string and a
concrete enum member name. -/
theorem C8_amended_witness :
    map_condition " very daMAged " = EwasteCondition.DAMAGED
    ∧ "SCRAP" = conditionName EwasteCondition.SCRAP :=
  ⟨(C8_condition_resolution.2.2.1 " very daMAged ").2.1 (by decide) (by decide),
   C8_condition_resolution.2.2.2 "SCRAP" EwasteCondition.SCRAP (by decide)⟩

/-- C9: `classify_image` always returns a classification result and never
propagates an external-service failure: with no API key it returns the
offline mock, on a failed external call it returns the offline mock, and on
a successful call it returns the service result. -/
theorem C9_classify_fallback :
    ∀ (infer : Except String (String × ℚ)) (img : Option ImgInfo) (path : String),
      classify_image false infer img path = generate_mock_results img path
      ∧ (∀ e, classify_image true (Except.error e) img path = generate_mock_results img path)
      ∧ (∀ r, classify_image true (Except.ok r) img path = r) :=
  fun _ _ _ => ⟨rfl, fun _ => rfl, fun _ => rfl⟩

lemma lookup_mem {β : Type} {l : List (String × β)} {a : String} {b : β}
    (h : l.lookup a = some b) : (a, b) ∈ l := by
  induction l with
  | nil => simp [List.lookup] at h
  | cons p l ih =>
    obtain ⟨k, v⟩ := p
    by_cases hk : (a == k) = true
    · simp only [List.lookup, hk] at h
      simp only [Option.some.injEq] at h
      subst h
      simp [List.mem_cons, eq_of_beq hk]
    · rw [Bool.not_eq_true] at hk
      simp only [List.lookup, hk] at h
      exact List.mem_cons_of_mem _ (ih h)

lemma class_to_type_values : ∀ p ∈ class_to_type, p.2 ∈ EWASTE_TYPES := by
  decide

/-- C10: every canonical label produced by the `class_to_type` synonym table
for a recognized key is a member of the canonical vocabulary
`EWASTE_TYPES`. -/
theorem C10_canonical_labels :
    ∀ s v : String, class_to_type.lookup s = some v → v ∈ EWASTE_TYPES :=
  fun s v h => class_to_type_values (s, v) (lookup_mem h)

/-- Witness for C10 at the synonym key "laptop". -/
theorem C10_witness : ("Laptop" : String) ∈ EWASTE_TYPES :=
  C10_canonical_labels "laptop" "Laptop" (by decide)
